import Mathlib

/-!
Verification of the en2bn translation glue layer.

This file gives a shallow embedding, in Lean, of the two Python modules
`translator.py` (class `Translation`) and `translation_module_setup.py`
(configuration classes, `TranslationSetup`, `create_translator`), together
with theorems settling the behavioural claims about them.

External collaborators (the model-hub client `snapshot_download`, the
SentencePiece tokenizer library, the CTranslate2 inference runtime, CUDA
availability) are modelled as a `World` record of oracle functions whose
results are `Except`-valued: an `.error` models the collaborator raising an
exception.  Python exceptions raised inside `try` blocks are modelled as
`Except.error` values; a `try/except` wrapper is a `match` collapsing the
error case exactly where the source catches it.  Mutable object state is
modelled by explicit state passing, and the filesystem (only ever touched
through `os.makedirs`) as the list of directories created so far.
-/

namespace NMT

/-- A process environment: an association list from variable names to values,
modelling `os.environ` after `load_dotenv()` has merged the dotenv file. -/
abbrev Env := List (String × String)

/-- `os.getenv(key)`: the value of the first binding of `key`, if any. -/
def getenv (env : Env) (key : String) : Option String :=
  (env.find? (fun p => p.1 = key)).map (fun p => p.2)

/-- The filesystem as far as this layer observes it: the directories that
`os.makedirs` has created. -/
abbrev FS := List String

/-- Last element of a list with a default, modelling Python's `lst[-1]` on the
(always non-empty) result of `str.split`. -/
def lastElem {α : Type} (d : α) : List α → α
  | [] => d
  | [a] => a
  | _ :: b :: rest => lastElem d (b :: rest)

/-- Python `str.split(sep)` for a single-character separator, on the character
list of the string: `"".split(sep) = [""]`, and adjacent separators produce
empty fields, as in CPython. -/
def pySplit (sep : Char) : List Char → List (List Char)
  | [] => [[]]
  | c :: rest =>
    if c = sep then [] :: pySplit sep rest
    else match pySplit sep rest with
      | [] => [[c]]
      | h :: t => (c :: h) :: t

/-- `posixpath.join(a, b)` for two components: `b` absolute replaces `a`;
otherwise a single separator is inserted unless `a` is empty or already ends
with one. -/
def pyJoin (a b : String) : String :=
  if b.toList.head? = some '/' then b
  else if a = "" then b
  else if a.toList.getLast? = some '/' then a ++ b
  else a ++ "/" ++ b

/-- `posixpath.dirname(p)`: everything up to (excluding) the last `/`, with
trailing separators stripped unless the head is all separators; `""` when `p`
contains no separator. -/
def pyDirname (p : String) : String :=
  let cs := p.toList
  let tailLen := (cs.reverse.takeWhile (fun c => ¬ (c = '/'))).length
  let head := cs.take (cs.length - tailLen)
  let head2 :=
    if head = [] then head
    else if head.all (fun c => c = '/') then head
    else (head.reverse.dropWhile (fun c => c = '/')).reverse
  String.mk head2

/-- `os.makedirs(name, exist_ok=True)` as observed by this layer: any
non-empty path is created recursively without error, while the empty path
raises `FileNotFoundError` (CPython's `mkdir('')` fails and `exist_ok` does
not suppress it because `isdir('')` is false). -/
def os_makedirs (name : String) (fs : FS) : Except String FS :=
  if name = "" then Except.error "FileNotFoundError: No such file or directory"
  else Except.ok (name :: fs)

/-- Python truthiness of an optional string: `None` and `""` are falsy. -/
def pyTruthyOpt : Option String → Bool
  | none => false
  | some s => ¬ (s = "")

/-- The external collaborators of the layer, as oracle functions over abstract
tokenizer handles `τ` and engine handles `ε`.  An `.error` result models the
collaborator raising an exception. -/
structure World (τ ε : Type) where
  /-- `torch.cuda.is_available()` at construction time. -/
  cuda_available : Bool
  /-- `snapshot_download(repo_id=…, local_dir=…, token=…)`: returns the
  resolved local path or raises. -/
  snapshot_download : String → String → Option String → Except String String
  /-- `spm.SentencePieceProcessor()` followed by `.load(path)`: a loaded
  tokenizer handle, or raises. -/
  spm_load : String → Except String τ
  /-- `ctranslate2.Translator(path, device=…)`: a loaded engine handle, or
  raises. -/
  ct2_load : String → String → Except String ε
  /-- `sp.encode_as_pieces(text)` on a source tokenizer handle. -/
  encode : τ → String → Except String (List String)
  /-- `translator.translate_batch(batch, batch_type=…, max_batch_size=…)`:
  for each input, its ranked list of hypothesis token sequences. -/
  translate_batch : ε → List (List String) → String → Nat → Except String (List (List (List String)))
  /-- `sp.decode_pieces(tokens)` on a target tokenizer handle. -/
  decode : τ → List String → Except String String

/-- The mutable state of a `Translation` object (translator.py). -/
structure Translation (τ ε : Type) where
  repo_id : String
  base_dir : Option String
  hf_token : Option String
  device : String
  repo_name : String
  translator : Option ε
  sp_source : Option τ
  sp_target : Option τ

/-- `Translation.__init__(repo_id, base_dir=None, device=None, hf_token=None)`:
records the arguments, derives `repo_name = repo_id.split('/')[-1]`, and
selects `"cuda"` when available else `"cpu"` unless a device was given.  The
three model handles start out `None`. -/
def Translation.make {τ ε : Type} (w : World τ ε) (repo_id : String)
    (base_dir : Option String) (device : Option String) (hf_token : Option String) :
    Translation τ ε :=
  { repo_id := repo_id
    base_dir := base_dir
    hf_token := hf_token
    repo_name := String.mk (lastElem [] (pySplit '/' repo_id.toList))
    device := device.getD (if w.cuda_available then "cuda" else "cpu")
    translator := none
    sp_source := none
    sp_target := none }

/-- `Translation._get_model_directory()`: `os.path.join(base_dir, repo_name)`
when `base_dir` is truthy, else `repo_name` alone. -/
def Translation.get_model_directory {τ ε : Type} (t : Translation τ ε) : String :=
  if pyTruthyOpt t.base_dir then pyJoin (t.base_dir.getD "") t.repo_name
  else t.repo_name

/-- `Translation._download_models()`: computes the model directory, runs
`os.makedirs(os.path.dirname(model_dir), exist_ok=True)`, then calls
`snapshot_download`; any exception is caught and `None` is returned. -/
def Translation.download_models {τ ε : Type} (w : World τ ε) (fs : FS)
    (t : Translation τ ε) : FS × Option String :=
  let model_dir := t.get_model_directory
  match os_makedirs (pyDirname model_dir) fs with
  | Except.error _ => (fs, none)
  | Except.ok fs1 =>
    match w.snapshot_download t.repo_id model_dir t.hf_token with
    | Except.error _ => (fs1, none)
    | Except.ok model_path => (fs1, some model_path)

/-- `Translation._initialize_models(ct, sp_s, sp_t)`: loads the two
SentencePiece models then the CTranslate2 engine, assigning each field as it
goes; `false` means an exception escaped (to be caught by `setup`), leaving
the fields assigned so far. -/
def Translation.initialize_models {τ ε : Type} (w : World τ ε) (t : Translation τ ε)
    (ct_model_path sp_source_path sp_target_path : String) :
    Translation τ ε × Bool :=
  match w.spm_load sp_source_path with
  | Except.error _ => ({ t with sp_source := none, sp_target := none }, false)
  | Except.ok s =>
    match w.spm_load sp_target_path with
    | Except.error _ => ({ t with sp_source := some s, sp_target := none }, false)
    | Except.ok tg =>
      match w.ct2_load ct_model_path t.device with
      | Except.error _ => ({ t with sp_source := some s, sp_target := some tg }, false)
      | Except.ok eng =>
        ({ t with sp_source := some s, sp_target := some tg, translator := some eng }, true)

/-- `Translation.setup()`: download, then (if a truthy path came back) derive
the three artifact paths and initialize the models; any exception is caught
and `False` returned, with whatever field assignments already happened kept. -/
def Translation.setup {τ ε : Type} (w : World τ ε) (fs : FS) (t : Translation τ ε) :
    FS × Translation τ ε × Bool :=
  let dl := t.download_models w fs
  match dl.2 with
  | none => (dl.1, t, false)
  | some model_path =>
    if model_path = "" then (dl.1, t, false)
    else
      let r := t.initialize_models w (pyJoin model_path "")
        (pyJoin model_path "bn.model") (pyJoin model_path "en.model")
      (dl.1, r.1, r.2)

/-- `Translation.translate(text)`: encode with the source tokenizer, submit a
single-item batch with `batch_type="tokens", max_batch_size=4096`, take
`translations[0].hypotheses[0]`, decode with the target tokenizer; any
exception anywhere (including the `AttributeError`/`IndexError` from unloaded
handles or empty results) is caught and `None` returned. -/
def Translation.translate {τ ε : Type} (w : World τ ε) (t : Translation τ ε)
    (text : String) : Option String :=
  match t.sp_source with
  | none => none
  | some sps =>
    match w.encode sps text with
    | Except.error _ => none
    | Except.ok source_tokens =>
      match t.translator with
      | none => none
      | some eng =>
        match w.translate_batch eng [source_tokens] "tokens" 4096 with
        | Except.error _ => none
        | Except.ok translations =>
          match translations.head? with
          | none => none
          | some result =>
            match result.head? with
            | none => none
            | some translated_tokens =>
              match t.sp_target with
              | none => none
              | some spt =>
                match w.decode spt translated_tokens with
                | Except.error _ => none
                | Except.ok translation => some translation

/-- The closed set of configuration variants (translation_module_setup.py):
`LocalTranslationConfig` carries the process environment it reads from,
`ColabTranslationConfig` carries the three caller-supplied values. -/
inductive BaseTranslationConfig : Type
  | localCfg (env : Env)
  | colabCfg (hf_token : String) (base_dir : String) (repo_id : String)

/-- `LocalTranslationConfig.__init__()`: only calls `load_dotenv()` (modelled
as the environment already holding the merged dotenv bindings) and performs no
credential check, so construction always succeeds. -/
def LocalTranslationConfig_init (env : Env) : Except String BaseTranslationConfig :=
  Except.ok (BaseTranslationConfig.localCfg env)

/-- `get_repo_id()`: `os.getenv('HUGGINGFACE_REPO_ID', "nascenia/bn2en_base")`
for the local variant, the stored value for Colab. -/
def BaseTranslationConfig.get_repo_id : BaseTranslationConfig → String
  | BaseTranslationConfig.localCfg env =>
    (getenv env "HUGGINGFACE_REPO_ID").getD "nascenia/bn2en_base"
  | BaseTranslationConfig.colabCfg _ _ repo_id => repo_id

/-- `get_base_dir()`: `os.getenv('MODEL_BASE_DIR')` for the local variant, the
stored value for Colab. -/
def BaseTranslationConfig.get_base_dir : BaseTranslationConfig → Option String
  | BaseTranslationConfig.localCfg env => getenv env "MODEL_BASE_DIR"
  | BaseTranslationConfig.colabCfg _ base_dir _ => some base_dir

/-- `get_token()`: for the local variant reads `HUGGINGFACE_TOKEN` and raises
`ValueError` when it is unset or empty (`if not token`); for Colab returns the
stored value. -/
def BaseTranslationConfig.get_token : BaseTranslationConfig → Except String String
  | BaseTranslationConfig.localCfg env =>
    match getenv env "HUGGINGFACE_TOKEN" with
    | none => Except.error "HUGGINGFACE_TOKEN is required in environment variables"
    | some token =>
      if token = "" then
        Except.error "HUGGINGFACE_TOKEN is required in environment variables"
      else Except.ok token
  | BaseTranslationConfig.colabCfg hf_token _ _ => Except.ok hf_token

/-- The state of a `TranslationSetup` object: its configuration and the
`translation_system` field, `none` while uninitialized. -/
structure TranslationSetup (τ ε : Type) where
  config : BaseTranslationConfig
  translation_system : Option (Translation τ ε)

/-- `TranslationSetup.initialize_system()`: evaluates the three config getters
(of which only `get_token` can raise; a raise is caught with `False` returned
and `translation_system` untouched), assigns the freshly constructed
`Translation` to `self.translation_system`, and returns `setup()`'s result.
The assignment happens before `setup()` is known to succeed. -/
def TranslationSetup.initialize_system {τ ε : Type} (w : World τ ε) (fs : FS)
    (s : TranslationSetup τ ε) : FS × TranslationSetup τ ε × Bool :=
  match s.config.get_token with
  | Except.error _ => (fs, s, false)
  | Except.ok tok =>
    let t0 := Translation.make w s.config.get_repo_id s.config.get_base_dir none (some tok)
    let r := Translation.setup w fs t0
    (r.1, { s with translation_system := some r.2.1 }, r.2.2)

/-- The body of the `try` block of `TranslationSetup.translate_text`: if
`translation_system` is falsy run `initialize_system`, raising `ValueError`
(modelled as `.error`) when it returns `False`; then return
`self.translation_system.translate(text)` (an `AttributeError`, also
`.error`, if the field were still `None`). -/
def TranslationSetup.translate_text_body {τ ε : Type} (w : World τ ε) (fs : FS)
    (s : TranslationSetup τ ε) (text : String) :
    FS × TranslationSetup τ ε × Except String (Option String) :=
  match s.translation_system with
  | some t => (fs, s, Except.ok (Translation.translate w t text))
  | none =>
    let r := TranslationSetup.initialize_system w fs s
    if r.2.2 then
      match r.2.1.translation_system with
      | some t => (r.1, r.2.1, Except.ok (Translation.translate w t text))
      | none => (r.1, r.2.1, Except.error "AttributeError: NoneType has no attribute translate")
    else (r.1, r.2.1, Except.error "Failed to initialize translation system")

/-- `TranslationSetup.translate_text(text)`: the `try` body with every raised
exception caught and converted to the `None` sentinel. -/
def TranslationSetup.translate_text {τ ε : Type} (w : World τ ε) (fs : FS)
    (s : TranslationSetup τ ε) (text : String) :
    FS × TranslationSetup τ ε × Option String :=
  let b := TranslationSetup.translate_text_body w fs s text
  (b.1, b.2.1,
    match b.2.2 with
    | Except.ok r => r
    | Except.error _ => none)

/-- The `Environment` enum selecting a configuration variant. -/
inductive PyEnvironment : Type
  | LOCAL
  | COLAB

/-- The keyword arguments `create_translator` inspects: presence of a key in
`**kwargs` is modelled as the field being `some`. -/
structure Kwargs where
  hf_token : Option String
  base_dir : Option String
  repo_id : Option String

/-- The list comprehension `[param for param in required_params if param not in
kwargs]` over `['hf_token', 'base_dir', 'repo_id']`. -/
def missing_params (k : Kwargs) : List String :=
  (if k.hf_token.isNone then ["hf_token"] else []) ++
  (if k.base_dir.isNone then ["base_dir"] else []) ++
  (if k.repo_id.isNone then ["repo_id"] else [])

/-- `create_translator(env, **kwargs)`: LOCAL builds a
`LocalTranslationConfig`; COLAB raises `ValueError` naming the missing
parameters when any of the three is absent, else builds a
`ColabTranslationConfig` from them (the `getD ""` arms are unreachable when
`missing_params k = []`); either way the config is wrapped in a fresh
`TranslationSetup`. -/
def create_translator {τ ε : Type} (env : PyEnvironment) (k : Kwargs) (procEnv : Env) :
    Except String (TranslationSetup τ ε) :=
  match env with
  | PyEnvironment.LOCAL =>
    Except.ok { config := BaseTranslationConfig.localCfg procEnv, translation_system := none }
  | PyEnvironment.COLAB =>
    let missing := missing_params k
    if missing = [] then
      Except.ok
        { config := BaseTranslationConfig.colabCfg (k.hf_token.getD "") (k.base_dir.getD "")
            (k.repo_id.getD "")
          translation_system := none }
    else
      Except.error
        ("Missing required parameters for Colab setup: " ++ String.intercalate ", " missing)

/-- A world whose collaborators all fail: CUDA absent, every external call
raises. -/
def stubWorld : World Unit Unit :=
  { cuda_available := false
    snapshot_download := fun _ _ _ => Except.error "network error"
    spm_load := fun _ => Except.error "load error"
    ct2_load := fun _ _ => Except.error "load error"
    encode := fun _ _ => Except.error "encode error"
    translate_batch := fun _ _ _ _ => Except.error "batch error"
    decode := fun _ _ => Except.error "decode error" }

/-- A world whose model-hub client succeeds but whose other collaborators
fail. -/
def hubOkWorld : World Unit Unit :=
  { stubWorld with snapshot_download := fun _ _ _ => Except.ok "model-x" }

/-- Stub collaborators for the end-to-end translation scenario:
`encode "ami bhalo achi" = [t1, t2, t3]`, the engine answers each input with
the single hypothesis `[u1, u2]`, and `decode [u1, u2] = "I am fine"`. -/
def pipelineWorld : World Unit Unit :=
  { stubWorld with
    encode := fun _ text =>
      Except.ok (if text = "ami bhalo achi" then ["t1", "t2", "t3"] else ["tok0"])
    translate_batch := fun _ batch _ _ => Except.ok (batch.map (fun _ => [["u1", "u2"]]))
    decode := fun _ toks => Except.ok (if toks = ["u1", "u2"] then "I am fine" else "other") }

/-- An explicit (Colab-style) configuration with all three values present. -/
def colabConfig : BaseTranslationConfig :=
  BaseTranslationConfig.colabCfg "tok" "/data" "org/model-x"

/-- An uninitialized service over the explicit configuration. -/
def freshSetup : TranslationSetup Unit Unit :=
  { config := colabConfig, translation_system := none }

/-- A fully loaded `Translation` object: both tokenizers and the engine
present. -/
def readyTranslation : Translation Unit Unit :=
  { repo_id := "org/model-x"
    base_dir := none
    hf_token := some "tok"
    device := "cpu"
    repo_name := "model-x"
    translator := some ()
    sp_source := some ()
    sp_target := some () }

/-- A service in the Ready state: `translation_system` holds a fully loaded
`Translation`. -/
def readySetup : TranslationSetup Unit Unit :=
  { config := colabConfig, translation_system := some readyTranslation }

/-- An uninitialized service over the environment-sourced configuration with
an empty environment (no credential). -/
def noTokenSetup : TranslationSetup Unit Unit :=
  { config := BaseTranslationConfig.localCfg [], translation_system := none }

/-- An environment carrying all three variables, for witnesses. -/
def fullEnv : Env :=
  [("HUGGINGFACE_REPO_ID", "r"), ("MODEL_BASE_DIR", "d"), ("HUGGINGFACE_TOKEN", "t")]

/-- Splitting on a character that does not occur returns the whole input as
the single field, as in Python `str.split`. -/
theorem pySplit_no_sep (sep : Char) (cs : List Char) (h : sep ∉ cs) :
    pySplit sep cs = [cs] := by
  induction cs with
  | nil => rfl
  | cons c rest ih =>
    have hc : ¬ (c = sep) := fun e => h (e ▸ List.mem_cons_self c rest)
    have hr : sep ∉ rest := fun m => h (List.mem_cons_of_mem c m)
    simp [pySplit, hc, ih hr]

/-- Rebuilding a string from its character list is the identity. -/
theorem string_mk_toList (s : String) : String.mk s.toList = s := by
  cases s
  rfl

/-- C4: with repository id `"org/model-x"` and storage directory `"/data"` the
derived model directory is `"/data/model-x"`, and with no storage directory it
is `"model-x"`. -/
theorem c4_model_directory :
    (Translation.make stubWorld "org/model-x" (some "/data") none none).get_model_directory =
      "/data/model-x" ∧
    (Translation.make stubWorld "org/model-x" none none none).get_model_directory =
      "model-x" := by
  exact ⟨by decide, by decide⟩

/-- C10: when the repository id contains no `/`, `repo_id.split('/')[-1]` is
the repository id itself, so `repo_name` equals `repo_id` and construction
succeeds on non-"owner/name"-shaped identifiers. -/
theorem c10_repo_name_no_slash {τ ε : Type} (w : World τ ε) (s : String)
    (h : '/' ∉ s.toList) :
    (Translation.make w s none none none).repo_name = s := by
  have hs := pySplit_no_sep '/' s.toList h
  simp only [Translation.make, hs, lastElem]
  exact string_mk_toList s

/-- C10 witness: a slash-free repository id is kept whole. -/
theorem c10_repo_name_no_slash_witness :
    (Translation.make stubWorld "modelx" none none none).repo_name = "modelx" :=
  c10_repo_name_no_slash stubWorld "modelx" (by decide)

/-- C3 (code bug): with no storage directory the derived target is the bare
name `"model-x"`, whose dirname is the empty string; `os.makedirs('')` raises
`FileNotFoundError`, the exception is caught, and `_download_models` returns
`None` without ever calling the hub client — here the client would have
succeeded (`hubOkWorld`), yet the result is `None` and the filesystem is
untouched. -/
theorem c3_download_fails_without_base_dir :
    (Translation.make hubOkWorld "org/model-x" none none (some "tok")).get_model_directory =
      "model-x" ∧
    pyDirname "model-x" = "" ∧
    Translation.download_models hubOkWorld []
      (Translation.make hubOkWorld "org/model-x" none none (some "tok")) = ([], none) := by
  exact ⟨by decide, by decide, by decide⟩

/-- C2 counterexample: with an empty environment (credential absent),
constructing `LocalTranslationConfig` succeeds — no configuration error is
raised at construction time; the `ValueError` only appears when `get_token` is
called later. -/
theorem c2_counterexample :
    LocalTranslationConfig_init [] = Except.ok (BaseTranslationConfig.localCfg []) ∧
    (BaseTranslationConfig.localCfg ([] : Env)).get_token =
      Except.error "HUGGINGFACE_TOKEN is required in environment variables" :=
  ⟨rfl, rfl⟩

/-- C2 (amended): constructing the environment-sourced configuration always
succeeds (its initializer only merges the dotenv file and performs no check);
the credential check happens in `get_token`, which raises a `ValueError` when
`HUGGINGFACE_TOKEN` is unset or empty. -/
theorem c2_credential_check_deferred (env : Env) :
    LocalTranslationConfig_init env = Except.ok (BaseTranslationConfig.localCfg env) ∧
    ((getenv env "HUGGINGFACE_TOKEN" = none ∨ getenv env "HUGGINGFACE_TOKEN" = some "") →
      (BaseTranslationConfig.localCfg env).get_token =
        Except.error "HUGGINGFACE_TOKEN is required in environment variables") := by
  refine ⟨rfl, ?_⟩
  rintro (h | h) <;> simp [BaseTranslationConfig.get_token, h]

/-- C2 witness: the amended statement at the empty environment. -/
theorem c2_credential_check_deferred_witness :
    (BaseTranslationConfig.localCfg ([] : Env)).get_token =
      Except.error "HUGGINGFACE_TOKEN is required in environment variables" :=
  (c2_credential_check_deferred []).2 (Or.inl rfl)

/-- C8: the environment-sourced configuration returns the value of
`HUGGINGFACE_REPO_ID` when set and `"nascenia/bn2en_base"` when unset, returns
`MODEL_BASE_DIR`'s value or absence verbatim, and returns the value of
`HUGGINGFACE_TOKEN` when set non-empty, raising a configuration error when it
is absent (unset or empty). -/
theorem c8_env_config (env : Env) :
    (∀ v, getenv env "HUGGINGFACE_REPO_ID" = some v →
      (BaseTranslationConfig.localCfg env).get_repo_id = v) ∧
    (getenv env "HUGGINGFACE_REPO_ID" = none →
      (BaseTranslationConfig.localCfg env).get_repo_id = "nascenia/bn2en_base") ∧
    ((BaseTranslationConfig.localCfg env).get_base_dir = getenv env "MODEL_BASE_DIR") ∧
    (∀ v, getenv env "HUGGINGFACE_TOKEN" = some v → ¬ (v = "") →
      (BaseTranslationConfig.localCfg env).get_token = Except.ok v) ∧
    ((getenv env "HUGGINGFACE_TOKEN" = none ∨ getenv env "HUGGINGFACE_TOKEN" = some "") →
      (BaseTranslationConfig.localCfg env).get_token =
        Except.error "HUGGINGFACE_TOKEN is required in environment variables") := by
  refine ⟨?_, ?_, rfl, ?_, ?_⟩
  · intro v hv
    simp [BaseTranslationConfig.get_repo_id, hv]
  · intro hv
    simp [BaseTranslationConfig.get_repo_id, hv]
  · intro v hv hne
    simp [BaseTranslationConfig.get_token, hv, hne]
  · rintro (h | h) <;> simp [BaseTranslationConfig.get_token, h]

/-- C8 witness: on an environment with all three variables set. -/
theorem c8_env_config_witness :
    (BaseTranslationConfig.localCfg fullEnv).get_repo_id = "r" ∧
    (BaseTranslationConfig.localCfg fullEnv).get_base_dir = some "d" ∧
    (BaseTranslationConfig.localCfg fullEnv).get_token = Except.ok "t" :=
  ⟨(c8_env_config fullEnv).1 "r" rfl,
   by rw [(c8_env_config fullEnv).2.2.1]; rfl,
   (c8_env_config fullEnv).2.2.2.1 "t" rfl (by decide)⟩

/-- C5: the Colab branch of `create_translator` constructs the explicit
configuration when all of `hf_token`, `base_dir`, `repo_id` are supplied, and
otherwise raises a `ValueError` whose message names, via `missing_params`,
exactly the absent ones and no others. -/
theorem c5_colab_factory (k : Kwargs) (procEnv : Env) :
    (∀ t b r, k.hf_token = some t → k.base_dir = some b → k.repo_id = some r →
      @create_translator Unit Unit PyEnvironment.COLAB k procEnv =
        Except.ok { config := BaseTranslationConfig.colabCfg t b r,
                    translation_system := none }) ∧
    (¬ (missing_params k = []) →
      @create_translator Unit Unit PyEnvironment.COLAB k procEnv =
        Except.error ("Missing required parameters for Colab setup: " ++
          String.intercalate ", " (missing_params k))) ∧
    (∀ p, p ∈ missing_params k ↔
      ((p = "hf_token" ∧ k.hf_token = none) ∨ (p = "base_dir" ∧ k.base_dir = none) ∨
       (p = "repo_id" ∧ k.repo_id = none))) := by
  refine ⟨?_, ?_, ?_⟩
  · intro t b r ht hb hr
    simp [create_translator, missing_params, ht, hb, hr]
  · intro h
    simp [create_translator, h]
  · intro p
    obtain ⟨ht, hb, hr⟩ := k
    cases ht <;> cases hb <;> cases hr <;> simp [missing_params]

/-- C5 witness: all three present constructs the config; `base_dir` absent is
reported, alone, in the error message. -/
theorem c5_colab_factory_witness :
    @create_translator Unit Unit PyEnvironment.COLAB
        ⟨some "tok", some "/data", some "org/model-x"⟩ [] =
      Except.ok { config := BaseTranslationConfig.colabCfg "tok" "/data" "org/model-x",
                  translation_system := none } ∧
    @create_translator Unit Unit PyEnvironment.COLAB
        ⟨some "tok", none, some "org/model-x"⟩ [] =
      Except.error "Missing required parameters for Colab setup: base_dir" := by
  constructor
  · exact (c5_colab_factory ⟨some "tok", some "/data", some "org/model-x"⟩ []).1
      "tok" "/data" "org/model-x" rfl rfl rfl
  · rw [(c5_colab_factory ⟨some "tok", none, some "org/model-x"⟩ []).2.1 (by decide)]
    rfl

/-- C7: for a loaded service, `translate` is target-decode of the top-ranked
hypothesis of the engine's answer to the single-item batch holding the
source-encoded input (submitted with `batch_type="tokens"`,
`max_batch_size=4096`). -/
theorem c7_translate_pipeline {τ ε : Type} (w : World τ ε) (t : Translation τ ε)
    (text : String) (sps spt : τ) (eng : ε)
    (hs : t.sp_source = some sps) (ht : t.sp_target = some spt)
    (he : t.translator = some eng)
    (toks : List String) (henc : w.encode sps text = Except.ok toks)
    (hyp : List String) (hyps : List (List String)) (rest : List (List (List String)))
    (hb : w.translate_batch eng [toks] "tokens" 4096 = Except.ok ((hyp :: hyps) :: rest))
    (out : String) (hd : w.decode spt hyp = Except.ok out) :
    Translation.translate w t text = some out := by
  simp [Translation.translate, hs, ht, he, henc, hb, hd]

/-- C7 witness: with the stub collaborators, `translate "ami bhalo achi"`
returns exactly `"I am fine"`. -/
theorem c7_translate_pipeline_witness :
    Translation.translate pipelineWorld readyTranslation "ami bhalo achi" =
      some "I am fine" :=
  c7_translate_pipeline pipelineWorld readyTranslation "ami bhalo achi" () () ()
    rfl rfl rfl ["t1", "t2", "t3"] rfl ["u1", "u2"] [] [] rfl "I am fine" rfl

/-- C6: a `translate_text` call on a Ready service leaves the filesystem and
the whole service state (config, tokenizers, engine) unchanged and returns
exactly `translate`'s result; a raise during encode, inference, or decode
makes that result the `None` sentinel, while a successful pipeline returns the
decoded text — so a later valid call on the same (unchanged) state succeeds
without re-running setup. -/
theorem c6_ready_state_preserved {τ ε : Type} (w : World τ ε) (fs : FS)
    (s : TranslationSetup τ ε) (t : Translation τ ε) (text : String)
    (h : s.translation_system = some t) :
    TranslationSetup.translate_text w fs s text = (fs, s, Translation.translate w t text) ∧
    (∀ sps, t.sp_source = some sps →
      ((∃ e, w.encode sps text = Except.error e) → Translation.translate w t text = none) ∧
      (∀ eng, t.translator = some eng → ∀ toks, w.encode sps text = Except.ok toks →
        ((∃ e, w.translate_batch eng [toks] "tokens" 4096 = Except.error e) →
          Translation.translate w t text = none) ∧
        (∀ hyp hyps rest, w.translate_batch eng [toks] "tokens" 4096 =
            Except.ok ((hyp :: hyps) :: rest) →
          ∀ spt, t.sp_target = some spt →
            ((∃ e, w.decode spt hyp = Except.error e) →
              Translation.translate w t text = none) ∧
            (∀ out, w.decode spt hyp = Except.ok out →
              Translation.translate w t text = some out)))) := by
  constructor
  · simp [TranslationSetup.translate_text, TranslationSetup.translate_text_body, h]
  · intro sps hs
    constructor
    · rintro ⟨e, he⟩
      simp [Translation.translate, hs, he]
    · intro eng heng toks henc
      constructor
      · rintro ⟨e, he⟩
        simp [Translation.translate, hs, henc, heng, he]
      · intro hyp hyps rest hb spt hst
        constructor
        · rintro ⟨e, he⟩
          simp [Translation.translate, hs, henc, heng, hb, hst, he]
        · intro out hout
          simp [Translation.translate, hs, henc, heng, hb, hst, hout]

/-- C6 witness: on the Ready service a failing world yields `None` while the
working world still translates, with state and filesystem untouched. -/
theorem c6_ready_state_preserved_witness :
    Translation.translate stubWorld readyTranslation "x" = none ∧
    TranslationSetup.translate_text pipelineWorld [] readySetup "ami bhalo achi" =
      ([], readySetup, some "I am fine") := by
  constructor
  · exact ((c6_ready_state_preserved stubWorld [] readySetup readyTranslation "x" rfl).2
      () rfl).1 ⟨"encode error", rfl⟩
  · rw [(c6_ready_state_preserved pipelineWorld [] readySetup readyTranslation
      "ami bhalo achi" rfl).1]
    rfl

/-- C9: every exception raised inside `translate_text`'s try block is caught
and converted to `None`, a normally returned value is passed through, and in
all cases — whatever the collaborators do — the caller observes a string or
the `None` sentinel, never a propagated exception. -/
theorem c9_no_exception_escape {τ ε : Type} (w : World τ ε) (fs : FS)
    (s : TranslationSetup τ ε) (text : String) :
    (∀ e, (TranslationSetup.translate_text_body w fs s text).2.2 = Except.error e →
      (TranslationSetup.translate_text w fs s text).2.2 = none) ∧
    (∀ r, (TranslationSetup.translate_text_body w fs s text).2.2 = Except.ok r →
      (TranslationSetup.translate_text w fs s text).2.2 = r) ∧
    ((TranslationSetup.translate_text w fs s text).2.2 = none ∨
      ∃ str, (TranslationSetup.translate_text w fs s text).2.2 = some str) := by
  refine ⟨?_, ?_, ?_⟩
  · intro e he
    simp [TranslationSetup.translate_text, he]
  · intro r hr
    simp [TranslationSetup.translate_text, hr]
  · cases hb : (TranslationSetup.translate_text_body w fs s text).2.2 with
    | error e => exact Or.inl (by simp [TranslationSetup.translate_text, hb])
    | ok r =>
      cases r with
      | none => exact Or.inl (by simp [TranslationSetup.translate_text, hb])
      | some str => exact Or.inr ⟨str, by simp [TranslationSetup.translate_text, hb]⟩

/-- C9 witness: the `ValueError` raised when initialization fails (no
credential in the environment) is caught and surfaced as `None`. -/
theorem c9_no_exception_escape_witness :
    (TranslationSetup.translate_text stubWorld [] noTokenSetup "hi").2.2 = none :=
  (c9_no_exception_escape stubWorld [] noTokenSetup "hi").1
    "Failed to initialize translation system" rfl

/-- C1 counterexample: over the explicit configuration, the hub client fails,
so the initialization attempt fails and `translate_text` returns `None` — yet
`translation_system` is not absent afterwards: `initialize_system` assigned
the `Translation` object before `setup()` reported failure, so the next call
will not re-attempt the fetch. -/
theorem c1_counterexample :
    (TranslationSetup.translate_text stubWorld [] freshSetup "hi").2.2 = none ∧
    ((TranslationSetup.translate_text stubWorld [] freshSetup "hi").2.1.translation_system).isSome =
      true :=
  ⟨by decide, by decide⟩

/-- C1 (amended): when the initialization attempt fails before the
`Translation` object is assigned (the config's `get_token` raises),
`translate_text` returns `None` with `translation_system` still absent, so the
next call re-attempts the full setup; but when the object is constructed and
`Translation.setup` returns false (e.g. the fetch fails), `translate_text`
still returns `None` while `translation_system` is left holding the
partially-initialized object, so subsequent calls skip setup. -/
theorem c1_failed_setup_state {τ ε : Type} (w : World τ ε) (fs : FS)
    (s : TranslationSetup τ ε) (text : String)
    (h : s.translation_system = none) :
    ((∃ e, s.config.get_token = Except.error e) →
      TranslationSetup.translate_text w fs s text = (fs, s, none)) ∧
    (∀ tok, s.config.get_token = Except.ok tok →
      (Translation.setup w fs
        (Translation.make w s.config.get_repo_id s.config.get_base_dir none
          (some tok))).2.2 = false →
      (TranslationSetup.translate_text w fs s text).2.2 = none ∧
      (TranslationSetup.translate_text w fs s text).2.1.translation_system =
        some (Translation.setup w fs
          (Translation.make w s.config.get_repo_id s.config.get_base_dir none
            (some tok))).2.1) := by
  constructor
  · rintro ⟨e, he⟩
    simp [TranslationSetup.translate_text, TranslationSetup.translate_text_body,
      TranslationSetup.initialize_system, h, he]
  · intro tok htok hsetup
    constructor <;>
      simp [TranslationSetup.translate_text, TranslationSetup.translate_text_body,
        TranslationSetup.initialize_system, h, htok, hsetup]

/-- C1 witness: the amended statement at the explicit configuration with a
failing hub client. -/
theorem c1_failed_setup_state_witness :
    (TranslationSetup.translate_text stubWorld [] freshSetup "hi").2.2 = none :=
  ((c1_failed_setup_state stubWorld [] freshSetup "hi" rfl).2 "tok" rfl rfl).1

end NMT
